import Mathlib

/-!
Verification development for the `add-delpher-urls-to-sdc.py` batch client
(SDC ResolverURL + Captions Adder).  Python strings are embedded as
`List Char`; the string primitives below mirror the CPython semantics of
`str.strip`, `str.lower` and the regular expressions the script uses, for
the ASCII inputs the tool handles.
-/

namespace SDC

/-- Python's default whitespace class (ASCII part), as used by `str.strip`
and by the regex class `\s`. -/
def pySpace (c : Char) : Bool :=
  c = ' ' || c = '\t' || c = '\n' || c = '\r' || c = '\x0b' || c = '\x0c'

/-- Python `str.strip()` (ASCII whitespace): drop whitespace from both ends. -/
def pyStrip (l : List Char) : List Char :=
  (l.dropWhile pySpace).rdropWhile pySpace

/-- Python `str.lower()` on ASCII data (`Char.toLower` lowercases A-Z). -/
def pyLower (l : List Char) : List Char :=
  l.map Char.toLower

/-- `strip` is idempotent (needed because the script both strips a URL before
writing it as a qualifier value and strips again when comparing). -/
theorem pyStrip_idem (l : List Char) : pyStrip (pyStrip l) = pyStrip l := by
  unfold pyStrip
  have key : (List.rdropWhile pySpace (l.dropWhile pySpace)).dropWhile pySpace
      = List.rdropWhile pySpace (l.dropWhile pySpace) := by
    rcases hr : List.rdropWhile pySpace (l.dropWhile pySpace) with _ | ⟨a, t⟩
    · simp
    · have hpre := List.rdropWhile_prefix (p := pySpace) (l := l.dropWhile pySpace)
      rw [hr] at hpre
      obtain ⟨t2, ht2⟩ := hpre
      have hhead : (l.dropWhile pySpace).head? = some a := by
        rw [← ht2]; rfl
      have hna : pySpace a = false := by
        have hh := List.head?_dropWhile_not pySpace l
        rw [hhead] at hh
        exact hh
      rw [List.dropWhile_cons, hna]
      simp
  rw [key, List.rdropWhile_idempotent]

-- ====================================================================
-- derive_caption_from_live_title
-- ====================================================================

/-- The known file extensions stripped in step 3 of
`derive_caption_from_live_title` (regex alternation, case-insensitive,
anchored at the end). -/
def knownExtensions : List (List Char) :=
  [".pdf".toList, ".jpg".toList, ".jpeg".toList, ".png".toList,
   ".tif".toList, ".tiff".toList, ".djvu".toList]

/-- Step 3: remove a known file extension at the very end (case-insensitive).
No listed extension is a suffix of another, so at most one alternative of the
regex can match. -/
def stripKnownExtension (l : List Char) : List Char :=
  match knownExtensions.find? (fun e => e.isSuffixOf (pyLower l)) with
  | some e => l.take (l.length - e.length)
  | none => l

/-- Matcher for the tail of `IA_TRAIL_RE` after the opening parenthesis and
the letters `IA`: zero or more characters other than a closing parenthesis,
then a closing parenthesis ending the (right-stripped) string. -/
def iaInner : List Char → Bool
  | [] => false
  | [c] => c = ')'
  | c :: rest => (c ≠ ')') && iaInner rest

/-- Does this list match the core of `IA_TRAIL_RE`
(an opening parenthesis, `IA` case-insensitively, no closing parenthesis
until a final closing parenthesis ending the string)? -/
def iaTailMatch : List Char → Bool
  | '(' :: c1 :: c2 :: rest =>
      (c1.toLower = 'i') && (c2.toLower = 'a') && iaInner rest
  | _ => false

/-- Index of the leftmost position whose suffix matches the core of
`IA_TRAIL_RE` (the regex engine returns the leftmost match; the leading
`\s*` of the pattern only widens the removed span over whitespace, which
the subsequent `.strip()` removes anyway). -/
def iaScan : List Char → Option Nat
  | [] => none
  | c :: rest =>
      if iaTailMatch (c :: rest) then some 0
      else (iaScan rest).map (· + 1)

/-- Step 4 substitution `IA_TRAIL_RE.sub("", name)` (the caller strips the
result right after, so whitespace absorbed by `\s*` of the pattern is
immaterial): on the right-stripped title, cut at the leftmost match of the
trailing `" (IA ...)"` parenthetical; otherwise leave the title unchanged. -/
def iaSub (name : List Char) : List Char :=
  let r := name.rdropWhile pySpace
  match iaScan r with
  | some j => r.take j
  | none => name

/-- The collapsing part of step 5, `re.sub(r"\s+", " ", name)`: each maximal
run of whitespace becomes a single space.  The flag records whether the
previous character was whitespace. -/
def squeezeGo : Bool → List Char → List Char
  | _, [] => []
  | prevWs, c :: rest =>
      if pySpace c then
        if prevWs then squeezeGo true rest
        else ' ' :: squeezeGo true rest
      else c :: squeezeGo false rest

def squeezeWs (l : List Char) : List Char := squeezeGo false l

/-- `derive_caption_from_live_title`: derive a clean caption candidate from a
live Commons File title.  Transcribes the five transformation steps of the
source; the surrounding try/except never fires on the pure model. -/
def derive_caption_from_live_title (liveTitle : List Char) : List Char :=
  if pyStrip liveTitle = [] then []
  else
    let name := pyStrip liveTitle
    let name := if pyLower (name.take 5) = "file:".toList then name.drop 5 else name
    let name := pyStrip (name.map (fun c => if c = '_' then ' ' else c))
    let name := stripKnownExtension name
    let name := pyStrip (iaSub name)
    pyStrip (squeezeWs name)

-- ====================================================================
-- SDC data model: claims, main values and qualifiers
-- ====================================================================

/-- The shapes of a snak `datavalue` that the inspection helpers
distinguish: a wikibase entity value (which may carry a numeric id, an
id string such as "Q74228490", or both), a string value, or anything
else (which every helper treats as a non-match). -/
inductive Datavalue
  | entity (numericId : Option Int) (idStr : Option String)
  | str (s : List Char)
  | other
deriving DecidableEq, Repr

/-- A main snak: either a concrete value or some other snaktype. -/
inductive Snak
  | value (dv : Datavalue)
  | novalue
deriving DecidableEq, Repr

/-- A claim as the inspection helpers see it: the server-assigned claim id
(opaque; embedded as a number), the main snak, and the qualifier map from
qualifier-property to its list of qualifier snaks (a snak with a missing or
malformed datavalue is `none`). -/
structure Claim where
  id : Nat
  mainsnak : Snak
  qualifiers : List (String × List (Option Datavalue))
deriving DecidableEq, Repr

def P_SOURCE_OF_FILE : String := "P7482"
def Q_FILE_ONLINE : Int := 74228490
def P_DESCRIBED_AT_URL : String := "P973"
def P_OPERATOR : String := "P137"
def Q_DELPHER : Int := 20670235

/-- Python `int(s)` on the digit tail used by the "Q<digits>" fallbacks. -/
def parseQIdTail (s : String) : Option Int :=
  (s.drop 1).toInt?

/-- `claim_has_value_q`: the claim's mainsnak is a concrete entity value for
the given numeric Q-id.  Prefers `numeric-id` when present; otherwise falls
back to an id string whose first character uppercases to `Q`. -/
def claim_has_value_q (claim : Claim) (numericQid : Int) : Bool :=
  match claim.mainsnak with
  | Snak.value (Datavalue.entity numericId idStr) =>
      match numericId with
      | some n => n = numericQid
      | none =>
          match idStr with
          | some s =>
              ((s.toUpper.startsWith "Q") && parseQIdTail s = some numericQid)
          | none => false
  | _ => false

/-- Association lookup in a claim's qualifier map (the source reads
`(claim.get("qualifiers") or \x7b\x7d).get(prop)`). -/
def lookupQuals : List (String × List (Option Datavalue)) → String →
    Option (List (Option Datavalue))
  | [], _ => none
  | (q, snaks) :: rest, prop => if q = prop then some snaks else lookupQuals rest prop

/-- `claim_has_qualifier_url`: at least one qualifier snak for `prop` is a
string datavalue equal, after stripping both sides, to `url`.  Malformed
snaks are skipped. -/
def claim_has_qualifier_url (claim : Claim) (prop : String) (url : List Char) : Bool :=
  match lookupQuals claim.qualifiers prop with
  | none => false
  | some snaks =>
      snaks.any (fun os =>
        match os with
        | some (Datavalue.str v) => pyStrip v = pyStrip url
        | _ => false)

/-- `claim_has_qualifier_q`: at least one qualifier snak for `prop` is an
entity datavalue for the given numeric Q-id (by `numeric-id`, or by an
id string starting with a capital `Q`). -/
def claim_has_qualifier_q (claim : Claim) (prop : String) (numericQid : Int) : Bool :=
  match lookupQuals claim.qualifiers prop with
  | none => false
  | some snaks =>
      snaks.any (fun os =>
        match os with
        | some (Datavalue.entity numericId idStr) =>
            (numericId = some numericQid) ||
              (match idStr with
               | some s => (s.startsWith "Q") && parseQIdTail s = some numericQid
               | none => false)
        | _ => false)

-- ====================================================================
-- Statement reconciliation (ensure_statement) against a server model
-- where writes take effect
-- ====================================================================

/-- MediaInfo id shape `[Mm]\d+` (full match, checked by
`get_p7482_claims`, `create_p7482_claim` and `get_existing_labels`). -/
def isMidShape : List Char → Bool
  | [] => false
  | c :: rest => (c = 'M' || c = 'm') && (!rest.isEmpty) && rest.all Char.isDigit

/-- `resolver_url.startswith(("http://", "https://"))` as checked by
`ensure_statement` on the raw (unstripped) string. -/
def startsWithHttp (url : List Char) : Bool :=
  "http://".toList.isPrefixOf url || "https://".toList.isPrefixOf url

/-- Model of the stdlib `urlparse` check performed by `add_qualifier_url`
(`parsed.scheme in ("http", "https") and parsed.netloc`): an explicit
`http://` or `https://` scheme followed by a non-empty authority
(characters before the next `/`, `?` or `#`). -/
def validAbsHttpUrl (url : List Char) : Bool :=
  ("http://".toList.isPrefixOf url &&
    !((url.drop 7).takeWhile (fun c => c ≠ '/' && c ≠ '?' && c ≠ '#')).isEmpty) ||
  ("https://".toList.isPrefixOf url &&
    !((url.drop 8).takeWhile (fun c => c ≠ '/' && c ≠ '?' && c ≠ '#')).isEmpty)

/-- One mutating Action-API request issued via `mw_mutate` by the statement
reconciler: `wbcreateclaim` of P7482=Q74228490, or a `wbsetqualifier` with a
string value or an item value. -/
inductive WriteOp
  | createClaim
  | setQualifierStr (cid : Nat) (prop : String) (value : List Char)
  | setQualifierItem (cid : Nat) (prop : String) (qid : Int)
deriving DecidableEq, Repr

/-- The entity's P7482 statement list plus a fresh-id counter, as held by the
server.  C1's premise "a server model where writes take effect" is realised
by `srvCreateClaim` / `srvSetQualifier` below, which apply exactly the
payloads the source sends. -/
structure SrvState where
  claims : List Claim
  counter : Nat
deriving DecidableEq, Repr

/-- Server effect of `wbcreateclaim` with payload
`snaktype=value, value=(item, numeric-id Q_FILE_ONLINE)`: a new claim with a
fresh server-assigned id and no qualifiers. -/
def srvCreateClaim (st : SrvState) : SrvState × Nat :=
  (⟨st.claims ++ [⟨st.counter, Snak.value (Datavalue.entity (some Q_FILE_ONLINE) none), []⟩],
    st.counter + 1⟩, st.counter)

/-- Append a qualifier snak under `prop` (the server adds a snak to the
claim's qualifier list for that property). -/
def addQualSnak : List (String × List (Option Datavalue)) → String → Option Datavalue →
    List (String × List (Option Datavalue))
  | [], prop, dv => [(prop, [dv])]
  | (q, snaks) :: rest, prop, dv =>
      if q = prop then (q, snaks ++ [dv]) :: rest
      else (q, snaks) :: addQualSnak rest prop dv

/-- Server effect of `wbsetqualifier` on the claim with id `cid`. -/
def srvSetQualifier (st : SrvState) (cid : Nat) (prop : String) (dv : Option Datavalue) :
    SrvState :=
  ⟨st.claims.map (fun c =>
      if c.id = cid then ⟨c.id, c.mainsnak, addQualSnak c.qualifiers prop dv⟩ else c),
    st.counter⟩

/-- `get_p7482_claims` given the entity's server-side claim list: an invalid
mid is logged and yields `[]` (the HTTP path is modelled separately for C8). -/
def getP7482ClaimsSrv (st : SrvState) (mid : List Char) : List Claim :=
  if isMidShape (pyStrip mid) then st.claims else []

/-- `add_qualifier_url`: validate, strip the URL once, and issue one
`wbsetqualifier` with the stripped URL as a JSON string value. -/
def add_qualifier_url (st : SrvState) (cid : Nat) (prop : String) (url : List Char) :
    Except String (SrvState × WriteOp) :=
  if prop = "" then Except.error "add_qualifier_url: invalid prop"
  else if pyStrip url = [] then Except.error "add_qualifier_url: url must be non-empty"
  else if !validAbsHttpUrl (pyStrip url) then
    Except.error "add_qualifier_url: invalid absolute URL"
  else
    Except.ok (srvSetQualifier st cid prop (some (Datavalue.str (pyStrip url))),
      WriteOp.setQualifierStr cid prop (pyStrip url))

/-- `add_qualifier_q`: validate and issue one `wbsetqualifier` with an item
value `(entity-type item, numeric-id qid)`. -/
def add_qualifier_q (st : SrvState) (cid : Nat) (prop : String) (qid : Int) :
    Except String (SrvState × WriteOp) :=
  if prop = "" then Except.error "add_qualifier_q: invalid prop"
  else if qid ≤ 0 then Except.error "add_qualifier_q: invalid numeric_qid"
  else
    Except.ok (srvSetQualifier st cid prop (some (Datavalue.entity (some qid) none)),
      WriteOp.setQualifierItem cid prop qid)

/-- `create_p7482_claim`: validate csrf and mid, then issue `wbcreateclaim`
(P7482 = Q74228490), returning the new claim id. -/
def create_p7482_claim (st : SrvState) (csrf mid : List Char) :
    Except String (SrvState × Nat × WriteOp) :=
  if pyStrip csrf = [] then Except.error "create_p7482_claim: csrf must be non-empty"
  else if !isMidShape (pyStrip mid) then Except.error "create_p7482_claim: invalid MediaInfo ID"
  else
    let (st1, cid) := srvCreateClaim st
    Except.ok (st1, cid, WriteOp.createClaim)

/-- `ensure_statement`: ensure P7482 = Q74228490 with qualifiers
P973 = resolver URL and P137 = Q20670235 on the entity.  Returns
`(status, claim id used, resulting server state, writes issued)`.
Token refresh bookkeeping lives in the `mw_mutate` model; here every
mutating call succeeds and takes effect on the server state. -/
def ensure_statement (st : SrvState) (csrf mid url : List Char) :
    Except String (String × Option Nat × SrvState × List WriteOp) :=
  if pyStrip mid = [] then Except.error "ensure_statement: invalid mid"
  else if pyStrip url = [] || !startsWithHttp url then
    Except.error "ensure_statement: invalid resolver_url"
  else
    let existing := getP7482ClaimsSrv st mid
    match existing.find? (fun c => claim_has_value_q c Q_FILE_ONLINE) with
    | none =>
        match create_p7482_claim st csrf mid with
        | Except.error e => Except.error e
        | Except.ok (st1, cid, w1) =>
            match add_qualifier_url st1 cid P_DESCRIBED_AT_URL url with
            | Except.error e => Except.error e
            | Except.ok (st2, w2) =>
                match add_qualifier_q st2 cid P_OPERATOR Q_DELPHER with
                | Except.error e => Except.error e
                | Except.ok (st3, w3) =>
                    Except.ok ("created", some cid, st3, [w1, w2, w3])
    | some target =>
        let cid := target.id
        let stepUrl : Except String (SrvState × List WriteOp) :=
          if claim_has_qualifier_url target P_DESCRIBED_AT_URL url then Except.ok (st, [])
          else
            match add_qualifier_url st cid P_DESCRIBED_AT_URL url with
            | Except.error e => Except.error e
            | Except.ok (st', w) => Except.ok (st', [w])
        match stepUrl with
        | Except.error e => Except.error e
        | Except.ok (stA, wsA) =>
            let stepQ : Except String (SrvState × List WriteOp) :=
              if claim_has_qualifier_q target P_OPERATOR Q_DELPHER then Except.ok (stA, [])
              else
                match add_qualifier_q stA cid P_OPERATOR Q_DELPHER with
                | Except.error e => Except.error e
                | Except.ok (st', w) => Except.ok (st', [w])
            match stepQ with
            | Except.error e => Except.error e
            | Except.ok (stB, wsB) =>
                let ws := wsA ++ wsB
                Except.ok (if ws.isEmpty then "already-present" else "updated", some cid, stB, ws)

/-- Two consecutive `ensure_statement` calls with identical inputs, the
second running on the state the first produced; returns each call's status
and list of writes. -/
def ensure_statement_twice (st : SrvState) (csrf mid url : List Char) :
    Except String ((String × List WriteOp) × (String × List WriteOp)) :=
  match ensure_statement st csrf mid url with
  | Except.error e => Except.error e
  | Except.ok (s1, _, st', ws1) =>
      match ensure_statement st' csrf mid url with
      | Except.error e => Except.error e
      | Except.ok (s2, _, _, ws2) => Except.ok ((s1, ws1), (s2, ws2))

-- ====================================================================
-- mw_mutate: the retrying POST helper
-- ====================================================================

def RETRYABLE_STATUS : List Nat := [502, 503, 504]
def RETRYABLE_API_CODES : List String := ["maxlag", "ratelimited", "internal_api_error"]
def RETRYABLE_AUTH_CODES : List String :=
  ["badtoken", "assertuserfailed", "assertnameduserfailed", "notloggedin"]

/-- Python `str.lower()` on an API error code (`(j["error"].get("code") or
"").lower()`); ASCII lowering. -/
def lowerCode (s : String) : String := String.mk (s.data.map Char.toLower)

/-- Body of one HTTP response as `mw_mutate` inspects it: JSON without an
`error` key, or JSON whose `error.code` is the given raw string. -/
inductive MwBody
  | ok
  | err (code : String)
deriving DecidableEq, Repr

/-- What one POST attempt yields: a transport-level exception
(`requests.RequestException` from `session.post`), or an HTTP response with
a status, an optional `Retry-After` header (`some none` when present but not
parseable as a float) and a body. -/
inductive MwResponse
  | exn
  | http (status : Nat) (retryAfter : Option (Option Rat)) (body : MwBody)
deriving DecidableEq, Repr

/-- Observable side effect of one non-final attempt: a `time.sleep` of the
given duration, or a CSRF refresh via `fetch_csrf` with no sleep. -/
inductive MwStep
  | slept (d : Rat)
  | refreshed
deriving DecidableEq, Repr

/-- How one logical `mw_mutate` call ends. -/
inductive MwOutcome
  | success (tok : String)
  | httpError (status : Nat)
  | apiError (code : String)
  | transportError
  | outOfFuel
deriving DecidableEq, Repr

/-- Exponential backoff with jitter:
`base_sleep * (2 ** (attempt - 1)) * (0.8 + 0.4 * random.random())`,
with `u` the value drawn by `random.random()`. -/
def backoff (baseSleep : Rat) (attempt : Nat) (u : Rat) : Rat :=
  baseSleep * 2 ^ (attempt - 1) * (4/5 + 2/5 * u)

/-- Sleep chosen when the status is in `RETRYABLE_STATUS` and a
`Retry-After` header is present: `max(float(ra), base_sleep)`, falling back
to `base_sleep` when the header does not parse as a float. -/
def retryAfterSleep (baseSleep : Rat) : Option Rat → Rat
  | some q => max q baseSleep
  | none => baseSleep

/-- `requests.Response.raise_for_status` raises for 4xx/5xx statuses. -/
def httpRaises (s : Nat) : Bool := 400 ≤ s && s < 600

/-- What `mw_mutate` does with the response of one attempt, transcribing its
per-attempt classification: retryable HTTP status (Retry-After or backoff,
bounded by the cap), `raise_for_status` feeding the transport handler,
JSON `error` codes that are retryable-transient, retryable-auth, or
non-retryable, a clean body, and transport exceptions. -/
inductive AttemptAction
  | retrySleep (d : Rat)
  | retryRefresh
  | stopSuccess
  | stopHttp (s : Nat)
  | stopApi (c : String)
  | stopTransport
deriving DecidableEq, Repr

def classify (mr : Nat) (bs : Rat) (u : Nat → Rat) (attempt : Nat) :
    MwResponse → AttemptAction
  | MwResponse.exn =>
      if attempt ≤ mr then AttemptAction.retrySleep (backoff bs attempt (u attempt))
      else AttemptAction.stopTransport
  | MwResponse.http s ra body =>
      if RETRYABLE_STATUS.contains s then
        let d := match ra with
          | some pa => retryAfterSleep bs pa
          | none => backoff bs attempt (u attempt)
        if attempt ≤ mr then AttemptAction.retrySleep d
        else AttemptAction.stopHttp s
      else if httpRaises s then
        -- raise_for_status throws HTTPError, caught by the transport handler
        if attempt ≤ mr then AttemptAction.retrySleep (backoff bs attempt (u attempt))
        else AttemptAction.stopHttp s
      else
        match body with
        | MwBody.ok => AttemptAction.stopSuccess
        | MwBody.err c =>
            if RETRYABLE_API_CODES.contains (lowerCode c) && attempt ≤ mr then
              AttemptAction.retrySleep (backoff bs attempt (u attempt))
            else if RETRYABLE_AUTH_CODES.contains (lowerCode c) && attempt ≤ mr then
              AttemptAction.retryRefresh
            else AttemptAction.stopApi c

/-- The `while True` loop of `mw_mutate`.  `resp` scripts the response of
each attempt (attempts are numbered from 1), `newTok` the token each
`fetch_csrf` call returns.  The fuel `mr + 1` is exact: every retry branch
requires `attempt ≤ mr`, so `outOfFuel` is unreachable from `mw_mutate`. -/
def mwMutateGo (mr : Nat) (bs : Rat) (u : Nat → Rat) (newTok : Nat → String)
    (resp : Nat → MwResponse) : Nat → Nat → String → List MwStep × MwOutcome
  | 0, _, _ => ([], MwOutcome.outOfFuel)
  | fuel + 1, attempt, tok =>
      match classify mr bs u attempt (resp attempt) with
      | AttemptAction.retrySleep d =>
          let r := mwMutateGo mr bs u newTok resp fuel (attempt + 1) tok
          (MwStep.slept d :: r.1, r.2)
      | AttemptAction.retryRefresh =>
          let r := mwMutateGo mr bs u newTok resp fuel (attempt + 1) (newTok attempt)
          (MwStep.refreshed :: r.1, r.2)
      | AttemptAction.stopSuccess => ([], MwOutcome.success tok)
      | AttemptAction.stopHttp s => ([], MwOutcome.httpError s)
      | AttemptAction.stopApi c => ([], MwOutcome.apiError c)
      | AttemptAction.stopTransport => ([], MwOutcome.transportError)

/-- `mw_mutate` with `max_retries = mr` and `base_sleep = bs`, starting at
attempt 1 with CSRF token `tok`: the trace of sleeps/refreshes and the final
outcome. -/
def mw_mutate (mr : Nat) (bs : Rat) (u : Nat → Rat) (newTok : Nat → String)
    (resp : Nat → MwResponse) (tok : String) : List MwStep × MwOutcome :=
  mwMutateGo mr bs u newTok resp (mr + 1) 1 tok

-- ====================================================================
-- Caption (label) reconciliation: the caption section of main()
-- ====================================================================

/-- Python's `a or b` on status strings (`df.at[...] or
"skipped-empty-candidate"`): keep `prev` unless it is the empty string. -/
def pyOr (prev dflt : String) : String := if prev = "" then dflt else prev

/-- Per-row caption outcome: the two status cells and the `wbsetlabel`
writes `(language, value)` issued. -/
structure CaptionResult where
  enStatus : String
  nlStatus : String
  writes : List (String × List Char)
deriving DecidableEq, Repr

/-- The caption block of `main()` for one row, given the label map the
read call returned and the derived candidate: an empty candidate
short-circuits (preserving non-empty pre-existing status cells); otherwise
each of `en`, `nl` is set only when its key is absent from the label map. -/
def captions_for_row (labels : List (String × List Char)) (candidate : List Char)
    (prevEN prevNL : String) : CaptionResult :=
  if pyStrip candidate = [] then
    ⟨pyOr prevEN "skipped-empty-candidate", pyOr prevNL "skipped-empty-candidate", []⟩
  else
    let keys := labels.map Prod.fst
    let enPresent := keys.contains "en"
    let nlPresent := keys.contains "nl"
    ⟨if enPresent then "already-present" else "created",
     if nlPresent then "already-present" else "created",
     (if enPresent then [] else [("en", candidate)]) ++
       (if nlPresent then [] else [("nl", candidate)])⟩

-- ====================================================================
-- Checkpointing: the row loop of main()
-- ====================================================================

/-- The checkpoint logic of the row loop: `rows` records, per row, whether
the row performed any change (`row_had_change`), `c` is
`success_since_flush`, `total` the number of write-bearing rows seen so far.
Returns the list of `write_back` checkpoints during the loop — each
identified by the cumulative count of write-bearing rows at that point, and
each writing the full accumulated row collection — together with the final
counter.  The final unconditional `write_back` after the loop is not part of
the list. -/
def checkpoint_loop (t : Nat) : List Bool → Nat → Nat → List Nat × Nat
  | [], c, _ => ([], c)
  | b :: rest, c, total =>
      if b then
        if t ≤ c + 1 then
          let r := checkpoint_loop t rest 0 (total + 1)
          ((total + 1) :: r.1, r.2)
        else checkpoint_loop t rest (c + 1) (total + 1)
      else checkpoint_loop t rest c total

-- ====================================================================
-- Read calls: no-such-entity handling (get_p7482_claims / get_existing_labels)
-- ====================================================================

/-- Payload of a successful `wbgetclaims` read: a well-formed claims
structure for P7482, or an unexpectedly-shaped payload (missing `claims`
dict or non-list property entry), which the source logs and maps to `[]`. -/
inductive ClaimsPayload
  | wellFormed (cs : List Claim)
  | malformed
deriving DecidableEq, Repr

/-- Payload of a successful `wbgetentities` read: the entity's raw label map
`language value`, or a payload with no usable `entities` entry. -/
inductive LabelsPayload
  | entities (labels : List (String × List Char))
  | noEntities
deriving DecidableEq, Repr

/-- Outcome of the underlying `mw_request` GET: parsed JSON, or an
`HTTPError` whose response body carries the given `error.code`
(`none` when the error body is not parseable JSON). -/
inductive ReadFetch (α : Type)
  | ok (p : α)
  | httpErr (code : Option String)
deriving DecidableEq, Repr

/-- `get_p7482_claims`: invalid mid is logged and yields `[]`; an HTTP error
whose body carries `no-such-entity` yields `[]`; any other HTTP error is
re-raised; a malformed payload is logged and yields `[]`. -/
def get_p7482_claims (mid : List Char) (fetch : ReadFetch ClaimsPayload) :
    Except String (List Claim) :=
  if !isMidShape (pyStrip mid) then Except.ok []
  else
    match fetch with
    | ReadFetch.httpErr c =>
        if c = some "no-such-entity" then Except.ok []
        else Except.error "requests.HTTPError"
    | ReadFetch.ok (ClaimsPayload.wellFormed cs) => Except.ok cs
    | ReadFetch.ok ClaimsPayload.malformed => Except.ok []

/-- `get_existing_labels`: an invalid mid raises `ValueError`; an HTTP error
whose body carries `no-such-entity` yields the empty map; any other HTTP
error is re-raised; on success, empty or whitespace-only label values are
filtered out and the surviving values stripped. -/
def get_existing_labels (mid : List Char) (fetch : ReadFetch LabelsPayload) :
    Except String (List (String × List Char)) :=
  if pyStrip mid = [] then Except.error "ValueError: empty or invalid mid"
  else if !isMidShape (pyStrip mid) then Except.error "ValueError: MID must be M<digits>"
  else
    match fetch with
    | ReadFetch.httpErr c =>
        if c = some "no-such-entity" then Except.ok []
        else Except.error "requests.HTTPError"
    | ReadFetch.ok LabelsPayload.noEntities => Except.ok []
    | ReadFetch.ok (LabelsPayload.entities ls) =>
        Except.ok (ls.filterMap (fun lv =>
          if pyStrip lv.2 = [] then none else some (lv.1, pyStrip lv.2)))

-- ====================================================================
-- Helper lemmas
-- ====================================================================

theorem isMidShape_ne_nil {l : List Char} (h : isMidShape l = true) : l ≠ [] := by
  cases l with
  | nil => simp [isMidShape] at h
  | cons c rest => simp

/-- Closed form of the checkpoint loop: starting below the threshold, the
flushes happen exactly at every `t`-th write-bearing row, and the final
counter is the remainder. -/
theorem checkpoint_loop_spec (t : Nat) (ht : 0 < t) :
    ∀ (rows : List Bool) (c total : Nat), c < t →
      checkpoint_loop t rows c total =
        ((List.range ((c + rows.count true) / t)).map (fun i => total + (t - c) + t * i),
         (c + rows.count true) % t) := by
  intro rows
  induction rows with
  | nil =>
      intro c total hc
      simp [checkpoint_loop, Nat.div_eq_of_lt hc, Nat.mod_eq_of_lt hc]
  | cons b rest ih =>
      intro c total hc
      cases b with
      | false =>
          simpa [checkpoint_loop] using ih c total hc
      | true =>
          rw [checkpoint_loop]
          by_cases hflush : t ≤ c + 1
          · have hct : c + 1 = t := by omega
            rw [if_pos rfl, if_pos hflush, ih 0 (total + 1) ht]
            have hcount : c + (rest.count true + 1) = rest.count true + t := by omega
            have hcnt : (true :: rest).count true = rest.count true + 1 := by
              simp [List.count_cons]
            rw [hcnt, hcount, Nat.add_div_right _ ht, Nat.add_mod_right]
            simp only [Nat.zero_add, Prod.mk.injEq]
            refine ⟨?_, trivial⟩
            rw [List.range_succ_eq_map, List.map_cons, List.map_map]
            have hhead : total + (t - c) = total + 1 := by omega
            rw [hhead]
            congr 1
            apply List.map_congr_left
            intro i _
            simp only [Function.comp_apply, Nat.succ_eq_add_one, Nat.mul_add, Nat.mul_one]
            omega
          · have hlt : c + 1 < t := by omega
            rw [if_pos rfl, if_neg hflush, ih (c + 1) (total + 1) hlt]
            have hcnt : (true :: rest).count true = rest.count true + 1 := by
              simp [List.count_cons]
            rw [hcnt]
            have harg : c + 1 + rest.count true = c + (rest.count true + 1) := by omega
            rw [harg]
            simp only [Prod.mk.injEq]
            refine ⟨?_, trivial⟩
            apply List.map_congr_left
            intro i _
            omega

/-- Every branch of the per-attempt classification that sleeps and retries
requires the attempt to be within the retry cap. -/
theorem classify_retrySleep_le {mr : Nat} {bs : Rat} {u : Nat → Rat} {a : Nat}
    {r : MwResponse} {d : Rat}
    (hc : classify mr bs u a r = AttemptAction.retrySleep d) : a ≤ mr := by
  by_cases h : a ≤ mr
  · exact h
  · exfalso
    cases r with
    | exn => simp [classify, h] at hc
    | http s ra body =>
        cases body <;> simp only [classify] at hc <;>
          (repeat' split at hc) <;> simp_all <;> omega

/-- Every branch that refreshes the token and retries requires the attempt
to be within the retry cap. -/
theorem classify_retryRefresh_le {mr : Nat} {bs : Rat} {u : Nat → Rat} {a : Nat}
    {r : MwResponse}
    (hc : classify mr bs u a r = AttemptAction.retryRefresh) : a ≤ mr := by
  by_cases h : a ≤ mr
  · exact h
  · exfalso
    cases r with
    | exn => simp [classify, h] at hc
    | http s ra body =>
        cases body <;> simp only [classify] at hc <;>
          (repeat' split at hc) <;> simp_all <;> omega

/-- An auth code is never in the transient API-code set. -/
theorem auth_not_api {x : String}
    (h : RETRYABLE_AUTH_CODES.contains x = true) :
    RETRYABLE_API_CODES.contains x = false := by
  simp only [RETRYABLE_AUTH_CODES, List.contains_cons, List.contains_nil,
    Bool.or_eq_true, beq_iff_eq, Bool.or_false] at h
  rcases h with h | h | h | h <;> subst h <;> decide

/-- The loop performs at most `fuel - 1` retries when the fuel is tied to
the attempt counter as `mw_mutate` ties it. -/
theorem mwMutateGo_length (mr : Nat) (bs : Rat) (u : Nat → Rat)
    (newTok : Nat → String) (resp : Nat → MwResponse) :
    ∀ (fuel attempt : Nat) (tok : String), attempt + fuel = mr + 2 →
      (mwMutateGo mr bs u newTok resp fuel attempt tok).1.length ≤ fuel - 1 := by
  intro fuel
  induction fuel with
  | zero => intro attempt tok _; simp [mwMutateGo]
  | succ fuel ih =>
      intro attempt tok hlink
      rw [mwMutateGo]
      cases hc : classify mr bs u attempt (resp attempt) with
      | retrySleep d =>
          have hle := classify_retrySleep_le hc
          have := ih (attempt + 1) tok (by omega)
          simp only [List.length_cons]
          omega
      | retryRefresh =>
          have hle := classify_retryRefresh_le hc
          have := ih (attempt + 1) (newTok attempt) (by omega)
          simp only [List.length_cons]
          omega
      | stopSuccess => simp
      | stopHttp s => simp
      | stopApi c => simp
      | stopTransport => simp

/-- The step at index `k` of the trace is produced by attempt `attempt + k`;
if that attempt's response is a 2xx JSON auth failure, the step is a token
refresh (and in particular not a sleep). -/
theorem mwMutateGo_get_auth (mr : Nat) (bs : Rat) (u : Nat → Rat)
    (newTok : Nat → String) (resp : Nat → MwResponse) :
    ∀ (fuel attempt : Nat) (tok : String) (k : Nat) (st : MwStep),
      (mwMutateGo mr bs u newTok resp fuel attempt tok).1.get? k = some st →
      ∀ (s : Nat) (ra : Option (Option Rat)) (c : String),
        resp (attempt + k) = MwResponse.http s ra (MwBody.err c) →
        RETRYABLE_STATUS.contains s = false → httpRaises s = false →
        RETRYABLE_AUTH_CODES.contains (lowerCode c) = true →
        st = MwStep.refreshed := by
  intro fuel
  induction fuel with
  | zero =>
      intro attempt tok k st hget
      simp [mwMutateGo] at hget
  | succ fuel ih =>
      intro attempt tok k st hget s ra c hresp hrs hhr hauth
      rw [mwMutateGo] at hget
      cases hc : classify mr bs u attempt (resp attempt) with
      | retrySleep d =>
          rw [hc] at hget
          cases k with
          | zero =>
              -- attempt's own response is the auth failure, yet it slept:
              -- impossible, the classification of an auth failure within the
              -- cap is a refresh, and beyond the cap it stops.
              exfalso
              rw [Nat.add_zero] at hresp
              have hle := classify_retrySleep_le hc
              have hrs' : s ∉ RETRYABLE_STATUS := by simpa using hrs
              have hhr' : ¬ (400 ≤ s ∧ s < 600) := by
                simpa [httpRaises] using hhr
              have hauth' : lowerCode c ∈ RETRYABLE_AUTH_CODES := by simpa using hauth
              have hapi' : lowerCode c ∉ RETRYABLE_API_CODES := by
                simpa using auth_not_api hauth
              rw [hresp] at hc
              simp [classify, hrs', hhr', hapi', hauth', hle, httpRaises] at hc
          | succ k =>
              simp only [List.get?_cons_succ] at hget
              have := ih (attempt + 1) tok k st hget s ra c
                (by rw [show attempt + 1 + k = attempt + (k + 1) from by omega]; exact hresp)
                hrs hhr hauth
              exact this
      | retryRefresh =>
          rw [hc] at hget
          cases k with
          | zero =>
              simp only [List.get?_cons_zero, Option.some.injEq] at hget
              exact hget.symm
          | succ k =>
              simp only [List.get?_cons_succ] at hget
              exact ih (attempt + 1) (newTok attempt) k st hget s ra c
                (by rw [show attempt + 1 + k = attempt + (k + 1) from by omega]; exact hresp)
                hrs hhr hauth
      | stopSuccess => rw [hc] at hget; simp at hget
      | stopHttp s' => rw [hc] at hget; simp at hget
      | stopApi c' => rw [hc] at hget; simp at hget
      | stopTransport => rw [hc] at hget; simp at hget

-- ====================================================================
-- Claim theorems
-- ====================================================================

/-- C9: `derive_caption_from_live_title` on the title
"File:Rotterdamsche courant 21-11-1840 (IA KBDDD02 000201168 mpeg21).pdf"
returns exactly "Rotterdamsche courant 21-11-1840": the "File:" prefixing
removed, the extension removed, the trailing " (IA ...)" parenthetical
removed, and whitespace trimmed and collapsed. -/
theorem caption_derivation_c9 :
    derive_caption_from_live_title
        "File:Rotterdamsche courant 21-11-1840 (IA KBDDD02 000201168 mpeg21).pdf".toList
      = "Rotterdamsche courant 21-11-1840".toList := by
  decide

/-- C8: when either read fails with an HTTP error whose API error code is
"no-such-entity", `get_p7482_claims` returns the empty list and
`get_existing_labels` returns the empty map, and neither raises. -/
theorem reads_no_such_entity_c8 (mid : List Char) (h : isMidShape (pyStrip mid) = true) :
    get_p7482_claims mid (ReadFetch.httpErr (some "no-such-entity")) = Except.ok [] ∧
    get_existing_labels mid (ReadFetch.httpErr (some "no-such-entity")) = Except.ok [] := by
  have hne : pyStrip mid ≠ [] := isMidShape_ne_nil h
  constructor
  · simp [get_p7482_claims, h]
  · simp [get_existing_labels, h, hne]

theorem reads_no_such_entity_c8_witness :
    isMidShape (pyStrip "M109018409".toList) = true ∧
    (get_p7482_claims "M109018409".toList (ReadFetch.httpErr (some "no-such-entity"))
        = Except.ok [] ∧
     get_existing_labels "M109018409".toList (ReadFetch.httpErr (some "no-such-entity"))
        = Except.ok []) :=
  ⟨by decide, reads_no_such_entity_c8 _ (by decide)⟩

/-- C6: a label is never overwritten once present — whenever the label map
returned by the read call contains a requested language ("en" or "nl"), the
caption reconciliation records "already-present" for that language and
issues no `wbsetlabel` write for it, regardless of the candidate text. -/
theorem captions_never_overwrite_c6 (labels : List (String × List Char))
    (cand : List Char) (pEN pNL : String) (hc : pyStrip cand ≠ []) :
    ((labels.map Prod.fst).contains "en" = true →
      (captions_for_row labels cand pEN pNL).enStatus = "already-present" ∧
      ∀ w ∈ (captions_for_row labels cand pEN pNL).writes, w.1 ≠ "en") ∧
    ((labels.map Prod.fst).contains "nl" = true →
      (captions_for_row labels cand pEN pNL).nlStatus = "already-present" ∧
      ∀ w ∈ (captions_for_row labels cand pEN pNL).writes, w.1 ≠ "nl") := by
  have hunfold : captions_for_row labels cand pEN pNL =
      ⟨if (labels.map Prod.fst).contains "en" then "already-present" else "created",
       if (labels.map Prod.fst).contains "nl" then "already-present" else "created",
       (if (labels.map Prod.fst).contains "en" then [] else [("en", cand)]) ++
         (if (labels.map Prod.fst).contains "nl" then [] else [("nl", cand)])⟩ := by
    simp only [captions_for_row, if_neg hc]
  rw [hunfold]
  constructor
  · intro he
    refine ⟨by simp only [he, if_true], ?_⟩
    intro w hw
    simp only [he, if_true, List.nil_append] at hw
    by_cases hn : (labels.map Prod.fst).contains "nl"
    · simp only [hn, if_true] at hw
      simp at hw
    · simp only [hn, Bool.false_eq_true, if_false, List.mem_singleton] at hw
      rw [hw]
      show ("nl" : String) ≠ "en"
      decide
  · intro hn
    refine ⟨by simp only [hn, if_true], ?_⟩
    intro w hw
    simp only [hn, if_true, List.append_nil] at hw
    by_cases he : (labels.map Prod.fst).contains "en"
    · simp only [he, if_true] at hw
      simp at hw
    · simp only [he, Bool.false_eq_true, if_false, List.mem_singleton] at hw
      rw [hw]
      show ("en" : String) ≠ "nl"
      decide

theorem captions_never_overwrite_c6_witness :
    pyStrip "Rotterdamsche courant".toList ≠ [] ∧
    ((([("en", "x".toList)].map Prod.fst).contains "en" = true →
      (captions_for_row [("en", "x".toList)] "Rotterdamsche courant".toList "" "").enStatus
          = "already-present" ∧
      ∀ w ∈ (captions_for_row [("en", "x".toList)] "Rotterdamsche courant".toList "" "").writes,
        w.1 ≠ "en") ∧
     (([("en", "x".toList)].map Prod.fst).contains "nl" = true →
      (captions_for_row [("en", "x".toList)] "Rotterdamsche courant".toList "" "").nlStatus
          = "already-present" ∧
      ∀ w ∈ (captions_for_row [("en", "x".toList)] "Rotterdamsche courant".toList "" "").writes,
        w.1 ≠ "nl")) :=
  ⟨by decide, captions_never_overwrite_c6 _ _ _ _ (by decide)⟩

/-- C7: with checkpoint threshold 3 and 7 write-bearing rows in the input
sequence, the loop invokes `write_back` exactly twice — after the 3rd and
after the 6th write-bearing row, resetting the counter each time (final
counter 1 = 7 mod 3) — and with the unconditional final `write_back` the
total is 3; each invocation persists the full accumulated row collection by
construction of `write_back(df, target_sheet)`. -/
theorem checkpoint_threshold_c7 (rows : List Bool) (h : rows.count true = 7) :
    (checkpoint_loop 3 rows 0 0).1 = [3, 6] ∧
    (checkpoint_loop 3 rows 0 0).1.length + 1 = 3 ∧
    (checkpoint_loop 3 rows 0 0).2 = 1 := by
  have hs := checkpoint_loop_spec 3 (by norm_num) rows 0 0 (by norm_num)
  rw [h] at hs
  rw [hs]
  refine ⟨?_, ?_, ?_⟩ <;> decide

theorem checkpoint_threshold_c7_witness :
    (List.replicate 7 true).count true = 7 ∧
    ((checkpoint_loop 3 (List.replicate 7 true) 0 0).1 = [3, 6] ∧
     (checkpoint_loop 3 (List.replicate 7 true) 0 0).1.length + 1 = 3 ∧
     (checkpoint_loop 3 (List.replicate 7 true) 0 0).2 = 1) :=
  ⟨by decide, checkpoint_threshold_c7 _ (by decide)⟩

-- Response scripts for the mw_mutate scenarios.

/-- A 429 response carrying `Retry-After: 7`, then a clean 200. -/
def script429 : Nat → MwResponse := fun n =>
  if n = 1 then MwResponse.http 429 (some (some 7)) MwBody.ok
  else MwResponse.http 200 none MwBody.ok

/-- Every attempt gets HTTP 503 with no Retry-After header. -/
def scriptAll503 : Nat → MwResponse := fun _ => MwResponse.http 503 none MwBody.ok

/-- A `badtoken` API error, then a clean 200. -/
def scriptBadtoken : Nat → MwResponse := fun n =>
  if n = 1 then MwResponse.http 200 none (MwBody.err "badtoken")
  else MwResponse.http 200 none MwBody.ok

/-- A 2xx JSON error with the upper-cased code `MAXLAG`, then a clean 200. -/
def scriptUpperMaxlag : Nat → MwResponse := fun n =>
  if n = 1 then MwResponse.http 200 none (MwBody.err "MAXLAG")
  else MwResponse.http 200 none MwBody.ok

/-- A 2xx JSON error with a non-retryable code. -/
def scriptNoSuchEntity : Nat → MwResponse := fun _ =>
  MwResponse.http 200 none (MwBody.err "no-such-entity")

/-- Every attempt gets HTTP 400. -/
def scriptAll400 : Nat → MwResponse := fun _ => MwResponse.http 400 none MwBody.ok

/-- A 403 response carrying `Retry-After: 9`, then a clean 200. -/
def script403 : Nat → MwResponse := fun n =>
  if n = 1 then MwResponse.http 403 (some (some 9)) MwBody.ok
  else MwResponse.http 200 none MwBody.ok

/-- C2, counterexample: the code's retryable-status set is `{502, 503, 504}`
and does not contain 429; a first-attempt 429 response carrying
`Retry-After: 7` is retried through the transport-exception handler with the
backoff sleep of 1 second, not the server-supplied 7 seconds, so the claim's
Retry-After behaviour fails at status 429. -/
theorem mw_mutate_429_c2_counterexample :
    RETRYABLE_STATUS.contains 429 = false ∧
    mw_mutate 4 1 (fun _ => 1/2) (fun _ => "r") script429 "t"
      = ([MwStep.slept 1], MwOutcome.success "t") ∧
    MwStep.slept (1 : Rat) ≠ MwStep.slept 7 := by
  refine ⟨by decide, ?_, by simp⟩
  simp [mw_mutate, mwMutateGo, classify, backoff, retryAfterSleep, RETRYABLE_STATUS,
    RETRYABLE_API_CODES, RETRYABLE_AUTH_CODES, lowerCode, httpRaises, script429]
  norm_num

/-- C2, amended: for statuses in the code's retryable set `{502, 503, 504}`
and within the attempt cap, the mutator sleeps `max(Retry-After, base_sleep)`
when the header is present and parseable, and the jittered exponential
backoff `base_sleep * 2^(attempt-1) * (0.8 + 0.4 * random())` otherwise;
a 503 followed by a 200 on the second attempt succeeds with exactly one
retry sleep; after the cap the last HTTP error is raised (429 is handled by
the transport-exception path instead, see the counterexample). -/
theorem mw_mutate_retryable_status_policy_c2 :
    (∀ (mr : Nat) (bs : Rat) (u : Nat → Rat) (nt : Nat → String)
        (resp : Nat → MwResponse) (tok : String) (s : Nat) (q : Rat) (b : MwBody),
      RETRYABLE_STATUS.contains s = true → 1 ≤ mr →
      resp 1 = MwResponse.http s (some (some q)) b →
      (mw_mutate mr bs u nt resp tok).1.head? = some (MwStep.slept (max q bs))) ∧
    (∀ (mr : Nat) (bs : Rat) (u : Nat → Rat) (nt : Nat → String)
        (resp : Nat → MwResponse) (tok : String) (s : Nat) (b : MwBody),
      RETRYABLE_STATUS.contains s = true → 1 ≤ mr →
      resp 1 = MwResponse.http s none b →
      (mw_mutate mr bs u nt resp tok).1.head? = some (MwStep.slept (backoff bs 1 (u 1)))) ∧
    (∀ (mr : Nat) (bs : Rat) (u : Nat → Rat) (nt : Nat → String)
        (resp : Nat → MwResponse) (tok : String) (b : MwBody),
      1 ≤ mr → resp 1 = MwResponse.http 503 none b →
      resp 2 = MwResponse.http 200 none MwBody.ok →
      mw_mutate mr bs u nt resp tok
        = ([MwStep.slept (backoff bs 1 (u 1))], MwOutcome.success tok)) ∧
    mw_mutate 4 1 (fun _ => 1/2) (fun _ => "r") scriptAll503 "t"
      = ([MwStep.slept 1, MwStep.slept 2, MwStep.slept 4, MwStep.slept 8],
         MwOutcome.httpError 503) := by
  refine ⟨?_, ?_, ?_, ?_⟩
  · intro mr bs u nt resp tok s q b hrs hmr hresp
    obtain ⟨k, rfl⟩ : ∃ k, mr = k + 1 := ⟨mr - 1, by omega⟩
    have hrs' : s ∈ RETRYABLE_STATUS := by simpa using hrs
    rw [mw_mutate, mwMutateGo, hresp]
    simp [classify, hrs', retryAfterSleep]
  · intro mr bs u nt resp tok s b hrs hmr hresp
    obtain ⟨k, rfl⟩ : ∃ k, mr = k + 1 := ⟨mr - 1, by omega⟩
    have hrs' : s ∈ RETRYABLE_STATUS := by simpa using hrs
    rw [mw_mutate, mwMutateGo, hresp]
    simp [classify, hrs']
  · intro mr bs u nt resp tok b hmr h1 h2
    obtain ⟨k, rfl⟩ : ∃ k, mr = k + 1 := ⟨mr - 1, by omega⟩
    rw [mw_mutate, mwMutateGo, h1, mwMutateGo, h2]
    simp [classify, RETRYABLE_STATUS, httpRaises]
  · simp [mw_mutate, mwMutateGo, classify, backoff, retryAfterSleep, RETRYABLE_STATUS,
      RETRYABLE_API_CODES, RETRYABLE_AUTH_CODES, lowerCode, httpRaises, scriptAll503]
    norm_num

theorem mw_mutate_retryable_status_policy_c2_witness :
    (mw_mutate 4 1 (fun _ => (1:Rat)/2) (fun _ => "r") scriptAll503 "t").1.head?
        = some (MwStep.slept (max (0 : Rat) 1)) ∧
    mw_mutate 4 1 (fun _ => (1:Rat)/2) (fun _ => "r") scriptAll503 "t"
      = ([MwStep.slept 1, MwStep.slept 2, MwStep.slept 4, MwStep.slept 8],
         MwOutcome.httpError 503) := by
  constructor
  · have h := (mw_mutate_retryable_status_policy_c2).2.2.2
    rw [h]
    norm_num
  · exact (mw_mutate_retryable_status_policy_c2).2.2.2

/-- C3: auth/token-expiry API failures (badtoken, assertuserfailed,
assertnameduserfailed, notloggedin) within one `mw_mutate` call are each
answered by exactly one token refresh followed by an immediate retry with no
backoff sleep, and the retries stay bounded by the attempt cap:  the trace
holds at most `max_retries` retry steps, every step answering a 2xx auth
failure is a refresh step (a single refresh, no sleep), and a `badtoken`
then a 200 yields success carrying the refreshed token after one
refresh step. -/
theorem mw_mutate_auth_refresh_c3 (mr : Nat) (bs : Rat) (u : Nat → Rat)
    (nt : Nat → String) (resp : Nat → MwResponse) (tok : String) :
    (mw_mutate mr bs u nt resp tok).1.length ≤ mr ∧
    (∀ (k : Nat) (st : MwStep), (mw_mutate mr bs u nt resp tok).1.get? k = some st →
      ∀ (s : Nat) (ra : Option (Option Rat)) (c : String),
        resp (k + 1) = MwResponse.http s ra (MwBody.err c) →
        RETRYABLE_STATUS.contains s = false → httpRaises s = false →
        RETRYABLE_AUTH_CODES.contains (lowerCode c) = true →
        st = MwStep.refreshed) ∧
    mw_mutate 4 1 u nt scriptBadtoken "t"
      = ([MwStep.refreshed], MwOutcome.success (nt 1)) := by
  refine ⟨?_, ?_, ?_⟩
  · have h := mwMutateGo_length mr bs u nt resp (mr + 1) 1 tok (by omega)
    simpa [mw_mutate] using h
  · intro k st hget s ra c hresp hrs hhr hauth
    exact mwMutateGo_get_auth mr bs u nt resp (mr + 1) 1 tok k st hget s ra c
      (by rw [show 1 + k = k + 1 from by omega]; exact hresp) hrs hhr hauth
  · have hl : lowerCode "badtoken" = "badtoken" := by decide
    simp [mw_mutate, mwMutateGo, classify, scriptBadtoken, hl, RETRYABLE_STATUS,
      RETRYABLE_API_CODES, RETRYABLE_AUTH_CODES, httpRaises]

theorem mw_mutate_auth_refresh_c3_witness :
    (mw_mutate 4 1 (fun _ => (1:Rat)/2) (fun _ => "fresh") scriptBadtoken "t").1.length ≤ 4 ∧
    mw_mutate 4 1 (fun _ => (1:Rat)/2) (fun _ => "fresh") scriptBadtoken "t"
      = ([MwStep.refreshed], MwOutcome.success "fresh") :=
  ⟨(mw_mutate_auth_refresh_c3 4 1 (fun _ => (1:Rat)/2) (fun _ => "fresh")
      scriptBadtoken "t").1,
   (mw_mutate_auth_refresh_c3 4 1 (fun _ => (1:Rat)/2) (fun _ => "fresh")
      scriptBadtoken "t").2.2⟩

/-- C4, counterexample: the raw code "MAXLAG" lies outside both literal sets
of the claim, yet `mw_mutate` lowercases codes before classifying, so a 2xx
JSON error carrying "MAXLAG" on the first attempt is retried with a backoff
sleep instead of raising immediately with zero retries and zero sleeps. -/
theorem mw_mutate_uppercase_code_c4_counterexample :
    RETRYABLE_API_CODES.contains "MAXLAG" = false ∧
    RETRYABLE_AUTH_CODES.contains "MAXLAG" = false ∧
    mw_mutate 4 1 (fun _ => 1/2) (fun _ => "r") scriptUpperMaxlag "t"
      = ([MwStep.slept 1], MwOutcome.success "t") ∧
    ([MwStep.slept 1] : List MwStep) ≠ [] := by
  refine ⟨by decide, by decide, ?_, by simp⟩
  have hl : lowerCode "MAXLAG" = "maxlag" := by decide
  simp [mw_mutate, mwMutateGo, classify, backoff, scriptUpperMaxlag, hl,
    RETRYABLE_STATUS, RETRYABLE_API_CODES, RETRYABLE_AUTH_CODES, httpRaises]
  norm_num

/-- C4, amended: a first response that is 2xx JSON carrying an error code
whose lowercased form lies outside both the retryable-transient set and the
auth set makes `mw_mutate` raise immediately on the first attempt with the
error payload attached — an empty trace (zero retries, zero sleeps, zero
further requests). -/
theorem mw_mutate_nonretryable_raises_c4 (mr : Nat) (bs : Rat) (u : Nat → Rat)
    (nt : Nat → String) (resp : Nat → MwResponse) (tok : String) (s : Nat)
    (ra : Option (Option Rat)) (c : String)
    (h2a : 200 ≤ s) (h2b : s < 300)
    (hresp : resp 1 = MwResponse.http s ra (MwBody.err c))
    (hapi : RETRYABLE_API_CODES.contains (lowerCode c) = false)
    (hauth : RETRYABLE_AUTH_CODES.contains (lowerCode c) = false) :
    mw_mutate mr bs u nt resp tok = ([], MwOutcome.apiError c) := by
  have hrs : s ∉ RETRYABLE_STATUS := by
    simp [RETRYABLE_STATUS]
    omega
  have hhr : ¬ (400 ≤ s ∧ s < 600) := by omega
  have hapi' : lowerCode c ∉ RETRYABLE_API_CODES := by simpa using hapi
  have hauth' : lowerCode c ∉ RETRYABLE_AUTH_CODES := by simpa using hauth
  rw [mw_mutate, mwMutateGo, hresp]
  simp [classify, hrs, hhr, hapi', hauth', httpRaises]

theorem mw_mutate_nonretryable_raises_c4_witness :
    mw_mutate 4 1 (fun _ => (1:Rat)/2) (fun _ => "r") scriptNoSuchEntity "t"
      = ([], MwOutcome.apiError "no-such-entity") :=
  mw_mutate_nonretryable_raises_c4 4 1 (fun _ => (1:Rat)/2) (fun _ => "r")
    scriptNoSuchEntity "t" 200 none "no-such-entity" (by decide) (by decide)
    (by decide) (by decide) (by decide)

/-- C10: a first-attempt HTTP failure status outside `{502, 503, 504}` —
including 400, 403 and 429 — does not make `mw_mutate` raise immediately:
`raise_for_status`'s HTTPError is caught by the transport-exception handler,
which sleeps the exponential backoff and retries (first trace entry is the
attempt-1 backoff sleep), and a persistent such status is retried up to the
attempt cap before the HTTP error is surfaced. -/
theorem mw_mutate_no_fail_fast_c10 :
    (∀ (mr : Nat) (bs : Rat) (u : Nat → Rat) (nt : Nat → String)
        (resp : Nat → MwResponse) (tok : String) (s : Nat)
        (ra : Option (Option Rat)) (b : MwBody),
      1 ≤ mr → 400 ≤ s → s < 600 → RETRYABLE_STATUS.contains s = false →
      resp 1 = MwResponse.http s ra b →
      (mw_mutate mr bs u nt resp tok).1.head?
        = some (MwStep.slept (backoff bs 1 (u 1)))) ∧
    mw_mutate 4 1 (fun _ => 1/2) (fun _ => "r") scriptAll400 "t"
      = ([MwStep.slept 1, MwStep.slept 2, MwStep.slept 4, MwStep.slept 8],
         MwOutcome.httpError 400) := by
  constructor
  · intro mr bs u nt resp tok s ra b hmr h4 h6 hrs hresp
    obtain ⟨k, rfl⟩ : ∃ k, mr = k + 1 := ⟨mr - 1, by omega⟩
    have hrs' : s ∉ RETRYABLE_STATUS := by simpa using hrs
    have hhr : 400 ≤ s ∧ s < 600 := by omega
    rw [mw_mutate, mwMutateGo, hresp]
    simp [classify, hrs', hhr, httpRaises]
  · simp [mw_mutate, mwMutateGo, classify, backoff, scriptAll400,
      RETRYABLE_STATUS, httpRaises]
    norm_num

theorem mw_mutate_no_fail_fast_c10_witness :
    (mw_mutate 4 1 (fun _ => (1:Rat)/2) (fun _ => "r") script403 "t").1.head?
        = some (MwStep.slept (backoff 1 1 (1/2))) ∧
    mw_mutate 4 1 (fun _ => (1:Rat)/2) (fun _ => "r") scriptAll400 "t"
      = ([MwStep.slept 1, MwStep.slept 2, MwStep.slept 4, MwStep.slept 8],
         MwOutcome.httpError 400) :=
  ⟨(mw_mutate_no_fail_fast_c10).1 4 1 (fun _ => (1:Rat)/2) (fun _ => "r")
      script403 "t" 403 (some (some 9)) MwBody.ok (by decide) (by decide)
      (by decide) (by decide) (by decide),
   (mw_mutate_no_fail_fast_c10).2⟩

-- Helper lemmas for the statement reconciler

theorem find?_append_none {p : Claim → Bool} {xs ys : List Claim}
    (h : ∀ x ∈ xs, p x = false) : (xs ++ ys).find? p = ys.find? p := by
  rw [List.find?_append, List.find?_eq_none.mpr, Option.none_or]
  intro x hx
  simp [h x hx]

theorem map_keep_of_ne (cid : Nat) (f : Claim → Claim) :
    ∀ xs : List Claim, (∀ y ∈ xs, y.id ≠ cid) →
      xs.map (fun y => if y.id = cid then f y else y) = xs := by
  intro xs
  induction xs with
  | nil => intro _; rfl
  | cons a t ih =>
      intro h
      rw [List.map_cons, if_neg (h a (List.mem_cons_self a t)),
        ih (fun y hy => h y (List.mem_cons_of_mem a hy))]

/-- Applying `wbsetqualifier` to a freshly created claim (whose id no other
claim shares) rewrites only that claim. -/
theorem srvSetQualifier_fresh (xs : List Claim) (idv : Nat) (sn : Snak)
    (ql : List (String × List (Option Datavalue))) (k : Nat) (prop : String)
    (dv : Option Datavalue) (hne : ∀ y ∈ xs, y.id ≠ idv) :
    srvSetQualifier ⟨xs ++ [⟨idv, sn, ql⟩], k⟩ idv prop dv
      = ⟨xs ++ [⟨idv, sn, addQualSnak ql prop dv⟩], k⟩ := by
  unfold srvSetQualifier
  simp only [List.map_append, List.map_cons, List.map_nil]
  rw [map_keep_of_ne idv _ xs hne]
  simp

/-- With no matching P7482=Q74228490 claim, `ensure_statement` creates the
claim and adds both qualifiers, in that order, and the resulting server
state carries the fully qualified claim. -/
theorem ensure_statement_create (st : SrvState) (csrf mid url : List Char)
    (hmid : isMidShape (pyStrip mid) = true)
    (hcsrf : pyStrip csrf ≠ [])
    (hhttp : startsWithHttp url = true)
    (hurl : pyStrip url ≠ [])
    (hvalid : validAbsHttpUrl (pyStrip url) = true)
    (hnone : ∀ c ∈ st.claims, claim_has_value_q c Q_FILE_ONLINE = false)
    (hids : ∀ c ∈ st.claims, c.id < st.counter) :
    ensure_statement st csrf mid url
      = Except.ok ("created", some st.counter,
          ⟨st.claims ++
             [⟨st.counter, Snak.value (Datavalue.entity (some Q_FILE_ONLINE) none),
               [(P_DESCRIBED_AT_URL, [some (Datavalue.str (pyStrip url))]),
                (P_OPERATOR, [some (Datavalue.entity (some Q_DELPHER) none)])]⟩],
           st.counter + 1⟩,
          [WriteOp.createClaim,
           WriteOp.setQualifierStr st.counter P_DESCRIBED_AT_URL (pyStrip url),
           WriteOp.setQualifierItem st.counter P_OPERATOR Q_DELPHER]) := by
  have hmne : pyStrip mid ≠ [] := isMidShape_ne_nil hmid
  have hne : ∀ y ∈ st.claims, y.id ≠ st.counter :=
    fun y hy => Nat.ne_of_lt (hids y hy)
  have hfind : st.claims.find? (fun c => claim_has_value_q c Q_FILE_ONLINE) = none :=
    List.find?_eq_none.mpr (by intro x hx; simp [hnone x hx])
  have e2 : add_qualifier_url
      ⟨st.claims ++ [⟨st.counter, Snak.value (Datavalue.entity (some Q_FILE_ONLINE) none), []⟩],
        st.counter + 1⟩ st.counter P_DESCRIBED_AT_URL url
      = Except.ok (⟨st.claims ++
            [⟨st.counter, Snak.value (Datavalue.entity (some Q_FILE_ONLINE) none),
              [(P_DESCRIBED_AT_URL, [some (Datavalue.str (pyStrip url))])]⟩],
          st.counter + 1⟩,
          WriteOp.setQualifierStr st.counter P_DESCRIBED_AT_URL (pyStrip url)) := by
    rw [add_qualifier_url, if_neg (by simp [P_DESCRIBED_AT_URL]), if_neg hurl,
      if_neg (by simp [hvalid]),
      srvSetQualifier_fresh st.claims st.counter _ _ _ _ _ hne]
    simp [addQualSnak]
  have e3 : add_qualifier_q
      ⟨st.claims ++
          [⟨st.counter, Snak.value (Datavalue.entity (some Q_FILE_ONLINE) none),
            [(P_DESCRIBED_AT_URL, [some (Datavalue.str (pyStrip url))])]⟩],
        st.counter + 1⟩ st.counter P_OPERATOR Q_DELPHER
      = Except.ok (⟨st.claims ++
            [⟨st.counter, Snak.value (Datavalue.entity (some Q_FILE_ONLINE) none),
              [(P_DESCRIBED_AT_URL, [some (Datavalue.str (pyStrip url))]),
               (P_OPERATOR, [some (Datavalue.entity (some Q_DELPHER) none)])]⟩],
          st.counter + 1⟩,
          WriteOp.setQualifierItem st.counter P_OPERATOR Q_DELPHER) := by
    rw [add_qualifier_q, if_neg (by simp [P_OPERATOR]), if_neg (by simp [Q_DELPHER]),
      srvSetQualifier_fresh st.claims st.counter _ _ _ _ _ hne]
    simp [addQualSnak, P_DESCRIBED_AT_URL, P_OPERATOR]
  rw [ensure_statement, if_neg hmne, if_neg (by simp [hurl, hhttp])]
  simp only [getP7482ClaimsSrv, hmid, if_true, hfind]
  rw [create_p7482_claim, if_neg hcsrf, if_neg (by simp [hmid])]
  simp only [srvCreateClaim, e2, e3]

/-- With a matching claim found and both qualifiers already present,
`ensure_statement` reports "already-present" and issues no writes. -/
theorem ensure_statement_already (st : SrvState) (csrf mid url : List Char)
    (target : Claim)
    (hmne : pyStrip mid ≠ [])
    (hhttp : startsWithHttp url = true)
    (hurl : pyStrip url ≠ [])
    (hfind : st.claims.find? (fun c => claim_has_value_q c Q_FILE_ONLINE) = some target)
    (hqu : claim_has_qualifier_url target P_DESCRIBED_AT_URL url = true)
    (hqq : claim_has_qualifier_q target P_OPERATOR Q_DELPHER = true)
    (hmid : isMidShape (pyStrip mid) = true) :
    ensure_statement st csrf mid url
      = Except.ok ("already-present", some target.id, st, []) := by
  rw [ensure_statement, if_neg hmne, if_neg (by simp [hurl, hhttp])]
  simp only [getP7482ClaimsSrv, hmid, if_true, hfind, hqu, hqq]
  simp

/-- C1: against a server where writes take effect, a first
`ensure_statement` call on an entity with no P7482=Q74228490 claim returns
"created" with exactly one `wbcreateclaim` write and two `wbsetqualifier`
writes (P973 then P137), and the identical repeated call returns
"already-present" with zero writes — so exactly one create-write and two
qualifier-writes occur across both calls. -/
theorem ensure_statement_idempotent_c1 (st : SrvState) (csrf mid url : List Char)
    (hmid : isMidShape (pyStrip mid) = true)
    (hcsrf : pyStrip csrf ≠ [])
    (hhttp : startsWithHttp url = true)
    (hurl : pyStrip url ≠ [])
    (hvalid : validAbsHttpUrl (pyStrip url) = true)
    (hnone : ∀ c ∈ st.claims, claim_has_value_q c Q_FILE_ONLINE = false)
    (hids : ∀ c ∈ st.claims, c.id < st.counter) :
    ensure_statement_twice st csrf mid url
      = Except.ok (("created",
          [WriteOp.createClaim,
           WriteOp.setQualifierStr st.counter P_DESCRIBED_AT_URL (pyStrip url),
           WriteOp.setQualifierItem st.counter P_OPERATOR Q_DELPHER]),
         ("already-present", [])) := by
  have hmne : pyStrip mid ≠ [] := isMidShape_ne_nil hmid
  have h1 := ensure_statement_create st csrf mid url hmid hcsrf hhttp hurl hvalid hnone hids
  have hfind2 : (st.claims ++
      [(⟨st.counter, Snak.value (Datavalue.entity (some Q_FILE_ONLINE) none),
        [(P_DESCRIBED_AT_URL, [some (Datavalue.str (pyStrip url))]),
         (P_OPERATOR, [some (Datavalue.entity (some Q_DELPHER) none)])]⟩ : Claim)]).find?
        (fun c => claim_has_value_q c Q_FILE_ONLINE)
      = some (⟨st.counter, Snak.value (Datavalue.entity (some Q_FILE_ONLINE) none),
          [(P_DESCRIBED_AT_URL, [some (Datavalue.str (pyStrip url))]),
           (P_OPERATOR, [some (Datavalue.entity (some Q_DELPHER) none)])]⟩ : Claim) := by
    rw [find?_append_none hnone]
    simp [List.find?, claim_has_value_q]
  have hqu : claim_has_qualifier_url
      (⟨st.counter, Snak.value (Datavalue.entity (some Q_FILE_ONLINE) none),
        [(P_DESCRIBED_AT_URL, [some (Datavalue.str (pyStrip url))]),
         (P_OPERATOR, [some (Datavalue.entity (some Q_DELPHER) none)])]⟩ : Claim)
      P_DESCRIBED_AT_URL url = true := by
    simp [claim_has_qualifier_url, lookupQuals, pyStrip_idem]
  have hqq : claim_has_qualifier_q
      (⟨st.counter, Snak.value (Datavalue.entity (some Q_FILE_ONLINE) none),
        [(P_DESCRIBED_AT_URL, [some (Datavalue.str (pyStrip url))]),
         (P_OPERATOR, [some (Datavalue.entity (some Q_DELPHER) none)])]⟩ : Claim)
      P_OPERATOR Q_DELPHER = true := by
    simp [claim_has_qualifier_q, lookupQuals, P_DESCRIBED_AT_URL, P_OPERATOR]
  have h2 := ensure_statement_already
    ⟨st.claims ++
        [⟨st.counter, Snak.value (Datavalue.entity (some Q_FILE_ONLINE) none),
          [(P_DESCRIBED_AT_URL, [some (Datavalue.str (pyStrip url))]),
           (P_OPERATOR, [some (Datavalue.entity (some Q_DELPHER) none)])]⟩],
      st.counter + 1⟩ csrf mid url _ hmne hhttp hurl hfind2 hqu hqq hmid
  simp only [ensure_statement_twice, h1, h2]

def c1Url : List Char := "https://resolver.kb.nl/resolve?urn=KBDDD02:000201168".toList

theorem ensure_statement_idempotent_c1_witness :
    ensure_statement_twice ⟨[], 0⟩ "tok".toList "M109018409".toList c1Url
      = Except.ok (("created",
          [WriteOp.createClaim,
           WriteOp.setQualifierStr 0 P_DESCRIBED_AT_URL (pyStrip c1Url),
           WriteOp.setQualifierItem 0 P_OPERATOR Q_DELPHER]),
         ("already-present", [])) :=
  ensure_statement_idempotent_c1 ⟨[], 0⟩ "tok".toList "M109018409".toList c1Url
    (by decide) (by decide) (by decide) (by decide) (by decide)
    (by intro c hc; simp at hc) (by intro c hc; simp at hc)

/-- C5, amended: when the first P7482 claim with main value Q74228490 found
by `ensure_statement` carries exactly one of the two required qualifiers,
the call returns "updated" and issues exactly one write — a single
`wbsetqualifier` for the missing qualifier only, with no create-write. -/
theorem ensure_statement_qualifier_completion_c5 (st : SrvState)
    (csrf mid url : List Char) (target : Claim)
    (hmid : isMidShape (pyStrip mid) = true)
    (hhttp : startsWithHttp url = true)
    (hurl : pyStrip url ≠ [])
    (hvalid : validAbsHttpUrl (pyStrip url) = true)
    (hfind : st.claims.find? (fun c => claim_has_value_q c Q_FILE_ONLINE) = some target) :
    (claim_has_qualifier_url target P_DESCRIBED_AT_URL url = true →
     claim_has_qualifier_q target P_OPERATOR Q_DELPHER = false →
     (ensure_statement st csrf mid url).map (fun r => (r.1, r.2.2.2))
       = Except.ok ("updated",
           [WriteOp.setQualifierItem target.id P_OPERATOR Q_DELPHER])) ∧
    (claim_has_qualifier_url target P_DESCRIBED_AT_URL url = false →
     claim_has_qualifier_q target P_OPERATOR Q_DELPHER = true →
     (ensure_statement st csrf mid url).map (fun r => (r.1, r.2.2.2))
       = Except.ok ("updated",
           [WriteOp.setQualifierStr target.id P_DESCRIBED_AT_URL (pyStrip url)])) := by
  have hmne : pyStrip mid ≠ [] := isMidShape_ne_nil hmid
  constructor
  · intro hq1 hq2
    rw [ensure_statement, if_neg hmne, if_neg (by simp [hurl, hhttp])]
    simp only [getP7482ClaimsSrv, hmid, if_true, hfind, hq1, hq2]
    simp [add_qualifier_q, P_OPERATOR, Q_DELPHER, Except.map]
  · intro hq1 hq2
    rw [ensure_statement, if_neg hmne, if_neg (by simp [hurl, hhttp])]
    simp only [getP7482ClaimsSrv, hmid, if_true, hfind, hq1, hq2]
    simp [add_qualifier_url, P_DESCRIBED_AT_URL, hurl, hvalid, Except.map]

def c5Url : List Char := "https://resolver.kb.nl/resolve?urn=X".toList

def c5ClaimBare : Claim := ⟨0, Snak.value (Datavalue.entity (some 74228490) none), []⟩

def c5ClaimOneQual : Claim :=
  ⟨1, Snak.value (Datavalue.entity (some 74228490) none),
    [("P973", [some (Datavalue.str c5Url)])]⟩

def c5State : SrvState := ⟨[c5ClaimBare, c5ClaimOneQual], 2⟩

/-- C5, counterexample: this entity's P7482 claims contain a claim with main
value Q74228490 carrying exactly one of the two required qualifiers
(P973 matches, P137 absent), yet `ensure_statement` — which targets the
first matching claim, here one with no qualifiers at all — returns "updated"
after issuing two `wbsetqualifier` writes, not exactly one. -/
theorem ensure_statement_first_match_c5_counterexample :
    c5ClaimOneQual ∈ c5State.claims ∧
    claim_has_value_q c5ClaimOneQual Q_FILE_ONLINE = true ∧
    claim_has_qualifier_url c5ClaimOneQual P_DESCRIBED_AT_URL c5Url = true ∧
    claim_has_qualifier_q c5ClaimOneQual P_OPERATOR Q_DELPHER = false ∧
    (ensure_statement c5State "tok".toList "M1".toList c5Url).map
        (fun r => (r.1, r.2.2.2.length))
      = Except.ok ("updated", 2) ∧
    (2 : Nat) ≠ 1 :=
  ⟨by decide, by decide, by decide, by decide, by rfl, by decide⟩

def c5StateOne : SrvState := ⟨[c5ClaimOneQual], 2⟩

theorem ensure_statement_qualifier_completion_c5_witness :
    (ensure_statement c5StateOne "tok".toList "M1".toList c5Url).map
        (fun r => (r.1, r.2.2.2))
      = Except.ok ("updated", [WriteOp.setQualifierItem 1 P_OPERATOR Q_DELPHER]) :=
  (ensure_statement_qualifier_completion_c5 c5StateOne "tok".toList "M1".toList c5Url
      c5ClaimOneQual (by decide) (by decide) (by decide) (by decide) (by decide)).1
    (by decide) (by decide)

end SDC
